import Mathlib

/-!
Shallow embedding of `src/hued.cpp` (HUE SSDP responder daemon) and proofs
about it.

The daemon consists of
  * a `Responder` (identity cache + response scheduler): `update`,
    `operator()`, `refresh`, `respond` — embedded below as `updateS`,
    `requestOp`, and the `fireRefresh` / `fireResponse` branches of `step`;
  * a `Listener` (multicast receive + parse/filter): `receive` — embedded
    as `receiveParse` and the `recv` branch of `step`;
  * `main`, which wires them into one `io_service` reactor and catches any
    escaping `std::exception` by terminating the process — embedded as the
    `dead` flag of `Sys`.

Time is modelled in milliseconds (`Sys.now`); the C++ refresh timer uses
`seconds(t_refresh)` and the response timer uses `milliseconds(t_response)`,
so the refresh window is `t_refresh * 1000` in this model.
-/

namespace Hued

set_option maxRecDepth 16384

/-- Listen port for SSDP requests (`multicast_port` in the source). -/
def multicast_port : Nat := 1900

/-- Seconds to cache description.xml (`t_refresh` in the source). -/
def t_refresh : Nat := 300

/-! ## Datagram parsing (`Listener::receive`)

The source uses `std::regex`:
  * `^M-SEARCH \* HTTP/1\.1` — the datagram must begin with the literal
    request line (ECMAScript `^` anchors at the start of the searched range);
  * `(\S+):\s(\S+)` — scanned repeatedly from the end of the previous match;
    each match contributes `request[name] = value` into an
    `unordered_map` (last assignment wins, missing key defaults to `""`).

`\s` in the default C locale matches exactly the six characters below, and
`\S` is its complement. -/

/-- The character class matched by `\s` in the default C locale. -/
def isWS (c : Char) : Bool :=
  c == ' ' || c == '\t' || c == '\n' || c == '\x0b' || c == '\x0c' || c == '\r'

/-- Maximal run of `\S` (non-whitespace) characters at the head of the list:
what a greedy `\S+` consumes. -/
def nonWsRun : List Char → List Char
  | [] => []
  | c :: cs => if isWS c then [] else c :: nonWsRun cs

/-- Boolean list prefix test (used for the anchored `^M-SEARCH \* HTTP/1\.1`
match and for `uuid.find("uuid:") == 0`). -/
def isPre : List Char → List Char → Bool
  | [], _ => true
  | _ :: _, [] => false
  | a :: as, b :: bs => a == b && isPre as bs

/--
Attempt to match the regex `(\S+):\s(\S+)` anchored at the head of `l`.

With a greedy `\S+` before the `:`, the only way the engine can succeed at
this position is: the maximal non-whitespace run here must end in `':'` and
have length at least 2 (name = run minus the final colon); the single `\s`
then consumes the whitespace character that terminated the run; the value is
the following maximal non-whitespace run, which must be non-empty.  (Any
earlier backtracking split would place the `\s` inside the run, where every
character is non-whitespace.)

Returns `(name, value, rest)` where `rest` is the remainder of the input
after the value capture (`what[2].second` in the source loop).
-/
def matchAt (l : List Char) : Option (List Char × List Char × List Char) :=
  if (nonWsRun l).length < 2 then none
  else if !((nonWsRun l).getLast? == some ':') then none
  else
    match l.drop (nonWsRun l).length with
    | [] => none
    | w :: rest1 =>
      if !(isWS w) then none
      else if (nonWsRun rest1).length == 0 then none
      else some ((nonWsRun l).dropLast, nonWsRun rest1, rest1.drop (nonWsRun rest1).length)

/--
The header scan loop of `Listener::receive`:

    for (char* start = what[0].second;
         regex_search(start, _data+bytes, what, expr);
         start = what[2].second)
      request[what[1]] = what[2];

`regex_search` finds the leftmost match, i.e. it tries each start position in
turn; on a successful match the scan resumes after the value capture.  `fuel`
bounds the recursion; every step consumes at least one character, so
`fuel = l.length` is always sufficient (`scanFuel_eq` below). -/
def scanFuel : Nat → List Char → List (String × String)
  | 0, _ => []
  | _ + 1, [] => []
  | fuel + 1, c :: cs =>
    match matchAt (c :: cs) with
    | some (n, v, rest) => (String.mk n, String.mk v) :: scanFuel fuel rest
    | none => scanFuel fuel cs

/-- All `Header: value` pairs found in `l`, in match order. -/
def scan (l : List Char) : List (String × String) := scanFuel l.length l

/-- Lookup in the scanned header pairs with the semantics of
`std::unordered_map::operator[]` under repeated assignment: the last
occurrence of a key wins, and a missing key yields the default-constructed
empty string. -/
def lookupLast (toks : List (String × String)) (k : String) : String :=
  toks.foldl (fun acc p => if p.1 == k then p.2 else acc) ""

/-- Decimal digit accumulation. -/
def digitsToNat (l : List Char) : Nat := l.foldl (fun a c => a * 10 + (c.toNat - 48)) 0

/-- The digit-string core of `boost::lexical_cast<uint16_t>`
(`lcast_ret_unsigned`): a non-empty string of decimal digits accumulated
into the unsigned target type, with overflow past the type's maximum
(65535) rejected during accumulation.  An empty string or any non-digit
character fails. -/
def castDigits (l : List Char) : Option Nat :=
  if l.length == 0 then none
  else if !(l.all fun c => c.isDigit) then none
  else if digitsToNat l < 65536 then some (digitsToNat l) else none

/-- `boost::lexical_cast<uint16_t>`: its stream-compatible unsigned
conversion (`shr_unsigned`) strips one optional leading `+` or `-`, converts
the remaining digits as the unsigned type (overflow beyond 65535 rejected),
and for a leading `-` negates the result in unsigned arithmetic, i.e.
modulo 2^16 (so `"-1"` → 65535).  An empty string, a lone sign, any other
non-digit character, or out-of-range digits throw `bad_lexical_cast`
(here: `none`). -/
def lexical_cast_uint16 (s : String) : Option Nat :=
  match s.data with
  | '+' :: ds => castDigits ds
  | '-' :: ds => (castDigits ds).map (fun n => (65536 - n) % 65536)
  | ds => castDigits ds

/-- The anchored request-line pattern `^M-SEARCH \* HTTP/1\.1`. -/
def msearchChars : List Char := "M-SEARCH * HTTP/1.1".data

/-- `service_types` from the source: the `ST` values hued responds to. -/
def service_types : List String :=
  ["urn:schemas-upnp-org:device:Basic:1", "upnp:rootdevice", "ssdpsearch:all", "ssdp:all"]

/-- `service_types.find(request["ST"]) != service_types.end()`. -/
def stOk (st : String) : Bool := service_types.contains st

/-- Header pairs of a datagram that begins with the request line: the scan
starts at `what[0].second`, i.e. right after the 19 matched characters. -/
def headersOf (d : List Char) : List (String × String) := scan (d.drop msearchChars.length)

/-- The accept/reject decision of `Listener::receive` as a function of the
header map: check the service type, then `lexical_cast` the `MX` value
(a `bad_lexical_cast` is caught and the datagram dropped). -/
def decision (toks : List (String × String)) : Option Nat :=
  if stOk (lookupLast toks "ST") then lexical_cast_uint16 (lookupLast toks "MX")
  else none

/-- Full parse/filter of one received datagram, `Listener::receive` lines
321–341: `some mx` means the query is accepted and the responder is invoked
with the parsed `MX` value; `none` means the datagram is silently dropped. -/
def receiveParse (d : List Char) : Option Nat :=
  if isPre msearchChars d then decision (headersOf d) else none

/-! ## Response messages (`HUE_RESPONSE`, `HUE_ST1..3`, `Responder::respond`)

`boost::format` substitution: `%1%` = `_server`, `%2%` = `_service`,
`%3%` = `_uuid`, `%4%` = the already-formatted ST block. -/

/-- The shared header block `HUE_RESPONSE` with its placeholders filled in. -/
def HUE_RESPONSE_hdr (server service u : String) : String :=
  "HTTP/1.1 200 OK\r\nHOST: 239.255.255.250:1900\r\nCACHE-CONTROL: max-age=100\r\nEXT:\r\n" ++
  ("LOCATION: http://" ++ server ++ ":" ++ service ++ "/description.xml\r\n" ++
   ("SERVER: Linux/3.14.0 UPnP/1.0 IpBridge/1.24.0\r\n" ++ "hue-bridgeid: " ++ u ++ "\r\n"))

/-- `HUE_ST1` with `%1%` = uuid. -/
def HUE_ST1 (u : String) : String :=
  "ST: upnp:rootdevice\r\nUSN: uuid:" ++ u ++ "::upnp:rootdevice\r\n\r\n"

/-- `HUE_ST2` with `%1%` = uuid. -/
def HUE_ST2 (u : String) : String :=
  "ST: uuid:" ++ u ++ "\r\nUSN: uuid:" ++ u ++ "\r\n\r\n"

/-- `HUE_ST3` with `%1%` = uuid. -/
def HUE_ST3 (u : String) : String :=
  "ST: urn:schemas-upnp-org:device:basic:1\r\nUSN: uuid:" ++ u ++ "\r\n\r\n"

/-- The three datagrams sent by `Responder::respond`, in send order. -/
def respondMsgs (server service u : String) : List String :=
  [HUE_RESPONSE_hdr server service u ++ HUE_ST1 u,
   HUE_RESPONSE_hdr server service u ++ HUE_ST2 u,
   HUE_RESPONSE_hdr server service u ++ HUE_ST3 u]

/-! ## The fetch (`Responder::update`) -/

/-- Observable shape of one upstream HTTP exchange, as `update` inspects it:
the status-line token and code (`statusOk` = the `istream` extractions
succeeded), whether the body read ended in clean EOF, whether
`read_xml` succeeded, and the result of `tree.get("root.device.UDN")`
(`none` = the path is missing, which makes `ptree::get` throw). -/
structure FetchResponse where
  http_version : String
  statusOk : Bool
  status_code : Nat
  cleanEof : Bool
  xmlOk : Bool
  udn : Option String
deriving DecidableEq

/-- Outcome of attempting the fetch: either the resolve/connect/write/
read_until chain threw (`noConnect`), or a response was read. -/
inductive FetchOutcome where
  | noConnect : FetchOutcome
  | got : FetchResponse → FetchOutcome
deriving DecidableEq

/-- `http_version.substr(0, 5) == "HTTP/"`. -/
def httpTokenOk (v : String) : Bool := v.data.take 5 == "HTTP/".data

/-- The literal prefix `uuid:` stripped from the UDN. -/
def uuidStr : List Char := "uuid:".data

/-! ## System state

One `Sys` value is the whole process: the `Responder`'s fields, the
`Listener`'s receive loop (`armed` = an `async_receive_from` is outstanding)
and the process itself (`dead` = an exception escaped `io_service::run` and
`main` exited).  Asio timers are one-shot: a pending wait is an optional
deadline; `deadline_timer::expires_from_now` on a timer with a pending wait
cancels that wait (its handler runs with `operation_aborted`, on which both
`refresh` and `respond` return immediately), so re-arming is modelled as
overwriting the optional. -/

structure Sys where
  server : String
  service : String
  uuid : String
  refresh : Bool
  trefreshDl : Option Nat
  tresponse : Option (String × Nat × Nat)
  armed : Bool
  dead : Bool
  now : Nat
deriving DecidableEq

/-- Observable outputs of a step: a datagram sent to `(addr, port)`, or an
upstream fetch attempt (with its outcome). -/
inductive Out where
  | send : String → Nat → String → Out
  | fetch : FetchOutcome → Out
deriving DecidableEq

/-- Result of `update`: normal return, or an exception propagating out of
the call (carrying the state as mutated so far). -/
inductive UpdRes where
  | ok : Sys → List Out → UpdRes
  | ex : Sys → List Out → UpdRes
deriving DecidableEq

/-- The first two statements of the `_refresh` branch of `update`: clear the
flag and arm the window timer for `t_refresh` seconds, before any network
activity. -/
def armWindow (s : Sys) : Sys :=
  { s with refresh := false, trefreshDl := some (s.now + t_refresh * 1000) }

/--
`Responder::update` (source lines 129–204).

If `_refresh` is false the call returns immediately.  Otherwise the flag is
cleared and the window timer armed, then the fetch runs synchronously:

  * resolve/connect/write/read_until throw on transport failure — the
    exception propagates out of `update` (`noConnect` ↦ `.ex`);
  * a failed status-line extraction or a token not starting with `HTTP/`
    returns early (`.ok`, identifier untouched);
  * a status code other than 200 returns early (`.ok`, identifier untouched);
  * a body read ending other than in clean EOF throws (`.ex`);
  * `read_xml` throws on a malformed document (`.ex`);
  * `tree.get("root.device.UDN")` throws if the path is absent (`.ex`);
  * `_uuid` is assigned only when the UDN value starts with the literal
    `uuid:`, and receives the remainder after that prefix.
-/
def updateS (s : Sys) (f : FetchOutcome) : UpdRes :=
  if s.refresh then
    match f with
    | .noConnect => .ex (armWindow s) [.fetch f]
    | .got r =>
      if !r.statusOk || !(httpTokenOk r.http_version) then .ok (armWindow s) [.fetch f]
      else if r.status_code != 200 then .ok (armWindow s) [.fetch f]
      else if !r.cleanEof then .ex (armWindow s) [.fetch f]
      else if !r.xmlOk then .ex (armWindow s) [.fetch f]
      else
        match r.udn with
        | none => .ex (armWindow s) [.fetch f]
        | some u =>
          if isPre uuidStr u.data then
            .ok { armWindow s with uuid := String.mk (u.data.drop uuidStr.length) } [.fetch f]
          else .ok (armWindow s) [.fetch f]
  else .ok s []

/-- State component of an `UpdRes`. -/
def updSys : UpdRes → Sys
  | .ok s _ => s
  | .ex s _ => s

/-- Output component of an `UpdRes`. -/
def updOuts : UpdRes → List Out
  | .ok _ o => o
  | .ex _ o => o

/-- `static_cast<uint64_t>(mx) * 1000 * rand() / RAND_MAX`, in milliseconds.
`mx ≤ 65535` and `rand() ≤ RAND_MAX ≤ 2^31 - 1`, so the 64-bit product never
wraps and the quotient fits the `uint32_t` it is stored into; plain `Nat`
arithmetic is therefore exact. -/
def t_response_ms (mx r rmax : Nat) : Nat := mx * 1000 * r / rmax

/--
`Responder::operator()` (source lines 218–224): call `update()`, then arm
the single `_tresponse` timer for the computed delay and async-wait on it
with `respond` bound to `(addr, port)`.

If `update` throws, the exception propagates out of `Listener::receive`
(whose try/catch only handles `bad_lexical_cast`), out of
`io_service::run`, and is caught in `main`, which exits: `dead := true`.

Re-arming `_tresponse` cancels any wait still pending on it; the cancelled
handler is invoked with `operation_aborted` and `respond` returns without
sending, so the earlier pending response is simply overwritten.
-/
def requestOp (s : Sys) (f : FetchOutcome) (addr : String) (port mx r rmax : Nat) :
    Sys × List Out :=
  match updateS s f with
  | .ex s1 outs => ({ s1 with dead := true }, outs)
  | .ok s1 outs =>
      ({ s1 with tresponse := some (addr, port, s1.now + t_response_ms mx r rmax) }, outs)

/-! ## Events and the reactor step -/

/-- One reactor event: time passing, a datagram delivered to the listener
(with error flag `ec`, the upstream's behaviour `f` should a fetch happen,
and the `rand()` draw `r` of `RAND_MAX = rmax`), the `_tresponse` timer
firing without error, or the `_trefresh` timer firing without error. -/
inductive Event where
  | tick : Nat → Event
  | recv : List Char → String → Nat → Bool → FetchOutcome → Nat → Nat → Event
  | fireResponse : Event
  | fireRefresh : Event
deriving DecidableEq

/-- Which events can occur in a state: nothing after the process exited; a
receive handler only runs while a receive is outstanding; `rand()` lies in
`[0, RAND_MAX]` with `RAND_MAX ≥ 32767`; a one-shot timer handler only runs
(without error) once armed and past its deadline. -/
def enabledB (s : Sys) : Event → Bool
  | .tick _ => !s.dead
  | .recv _ _ _ _ _ r rmax => !s.dead && s.armed && decide (32767 ≤ rmax) && decide (r ≤ rmax)
  | .fireResponse =>
      !s.dead && (match s.tresponse with
                  | some (_, _, dl) => decide (dl ≤ s.now)
                  | none => false)
  | .fireRefresh =>
      !s.dead && (match s.trefreshDl with
                  | some dl => decide (dl ≤ s.now)
                  | none => false)

/--
One reactor step.

  * `tick`: time passes.
  * `fireRefresh`: `Responder::refresh` runs without error and sets
    `_refresh = true` (source lines 230–234).
  * `fireResponse`: `Responder::respond` runs without error and sends the
    three datagrams — built from `_server`, `_service` and the *current*
    `_uuid` — to the `(addr, port)` bound into the handler
    (source lines 245–266).
  * `recv`: `Listener::receive` (source lines 313–343).  On an error code it
    returns before re-arming the receive, so the listener stops.  Otherwise
    it re-arms the receive first, then parses and filters the datagram, and
    on acceptance invokes `Responder::operator()`.
-/
def step (s : Sys) : Event → Sys × List Out
  | .tick dt => ({ s with now := s.now + dt }, [])
  | .fireRefresh =>
      match s.trefreshDl with
      | some _ => ({ s with trefreshDl := none, refresh := true }, [])
      | none => (s, [])
  | .fireResponse =>
      match s.tresponse with
      | some (a, p, _) =>
          ({ s with tresponse := none },
           (respondMsgs s.server s.service s.uuid).map (fun m => Out.send a p m))
      | none => (s, [])
  | .recv d a p ec f r rmax =>
      if ec then ({ s with armed := false }, [])
      else
        match receiveParse d with
        | none => (s, [])
        | some mx => requestOp s f a p mx r rmax

/-- Run a sequence of events, collecting outputs. -/
def run (s : Sys) : List Event → Sys × List Out
  | [] => (s, [])
  | e :: es =>
      ((run (step s e).1 es).1, (step s e).2 ++ (run (step s e).1 es).2)

/-- A trace is valid when every event is enabled in the state it occurs in. -/
def validTrace (s : Sys) : List Event → Bool
  | [] => true
  | e :: es => enabledB s e && validTrace (step s e).1 es

/-- The process state right after `main` constructed the `Responder` and the
`Listener`: empty uuid, `_refresh = true`, no pending timers, one receive
outstanding. -/
def initSys (server service : String) : Sys :=
  { server := server, service := service, uuid := "", refresh := true,
    trefreshDl := none, tresponse := none, armed := true, dead := false, now := 0 }

/-- Is this output a fetch attempt? -/
def isFetchOut : Out → Bool
  | .fetch _ => true
  | .send _ _ _ => false

/-- Is this event a datagram delivery to the listener? -/
def isRecvEvent : Event → Bool
  | .recv _ _ _ _ _ _ _ => true
  | _ => false

/-! ## Concrete example inputs used by witnesses and counterexamples -/

/-- A well-formed M-SEARCH datagram with a supported service type. -/
def dgA : List Char := "M-SEARCH * HTTP/1.1\r\nST: ssdp:all\r\nMX: 3\r\n\r\n".data

/-- A well-formed M-SEARCH datagram with `MX: 0`. -/
def dg0 : List Char := "M-SEARCH * HTTP/1.1\r\nST: ssdp:all\r\nMX: 0\r\n\r\n".data

/-- A well-formed M-SEARCH datagram with `MX: -1` — not an unsigned 16-bit
numeral, yet accepted by `boost::lexical_cast<uint16_t>` as 65535. -/
def dgNeg : List Char := "M-SEARCH * HTTP/1.1\r\nST: ssdp:all\r\nMX: -1\r\n\r\n".data

/-- A response that reached the bridge but carries a 404 status: `update`
returns early and the identifier is untouched. -/
def rsp404 : FetchResponse :=
  { http_version := "HTTP/1.1", statusOk := true, status_code := 404,
    cleanEof := true, xmlOk := true, udn := none }

/-- The 404 response as a fetch outcome. -/
def f404 : FetchOutcome := .got rsp404

/-- A fully successful response whose UDN is `uuid:ABC-123`. -/
def rspGood : FetchResponse :=
  { http_version := "HTTP/1.1", statusOk := true, status_code := 200,
    cleanEof := true, xmlOk := true, udn := some "uuid:ABC-123" }

/-- The successful response as a fetch outcome. -/
def fGood : FetchOutcome := .got rspGood

/-- A successful 200 response whose UDN value lacks the literal `uuid:`
prefix. -/
def fBare : FetchOutcome :=
  .got { http_version := "HTTP/1.1", statusOk := true, status_code := 200,
         cleanEof := true, xmlOk := true, udn := some "ABC-123" }

/-- Trace for the C1 counterexample: two accepted queries from different
senders, then the single `_tresponse` timer fires.  The first query enters
with `_refresh = true`, so it performs the (404, swallowed) fetch; `rand()`
is drawn as 0 both times, so both computed delays are 0 ms. -/
def c1trace : List Event :=
  [.recv dgA "10.0.0.1" 1000 false f404 0 2147483647,
   .recv dgA "10.0.0.2" 2000 false f404 0 2147483647,
   .fireResponse]

/-- Trace for the C2 counterexample: one accepted query whose synchronous
identity fetch cannot connect to the bridge. -/
def c2trace : List Event :=
  [.recv dgA "10.0.0.1" 1000 false .noConnect 0 2147483647]

/-- A state with the refresh window open and an earlier response already
pending for 10.0.0.1. -/
def s1pend : Sys :=
  { initSys "bridge.local" "80" with
    refresh := false
    tresponse := some ("10.0.0.1", 1000, 5) }

/-- A state with a cached identifier and a response pending for the
requester at 10.0.0.5:51000. -/
def s4 : Sys :=
  { initSys "bridge.local" "80" with
    uuid := "ABC-123"
    tresponse := some ("10.0.0.5", 51000, 0) }

/-- A state inside an open refresh window. -/
def s7 : Sys := { initSys "bridge.local" "80" with refresh := false }

/-- A state that already cached the identifier `OLD` and may refetch. -/
def s8 : Sys := { initSys "bridge.local" "80" with uuid := "OLD" }

/-- A state whose listener has stopped (an errored receive happened). -/
def s10 : Sys := { initSys "bridge.local" "80" with armed := false }

/-! ## Helper lemmas -/

/-- A successful anchored match of `(\S+):\s(\S+)` consumes at least one
character: the continuation point is strictly inside the input. -/
theorem matchAt_rest_lt {l n v rest : List Char} (h : matchAt l = some (n, v, rest)) :
    rest.length < l.length := by
  unfold matchAt at h
  split at h
  · exact absurd h (by simp)
  split at h
  · exact absurd h (by simp)
  split at h
  · exact absurd h (by simp)
  rename_i w rest1 heq
  split at h
  · exact absurd h (by simp)
  split at h
  · exact absurd h (by simp)
  simp only [Option.some.injEq, Prod.mk.injEq] at h
  obtain ⟨-, -, h3⟩ := h
  subst h3
  have hlen : (l.drop (nonWsRun l).length).length = l.length - (nonWsRun l).length :=
    List.length_drop _ _
  rw [heq] at hlen
  simp only [List.length_cons] at hlen
  have : (rest1.drop (nonWsRun rest1).length).length ≤ rest1.length := by
    rw [List.length_drop]; omega
  omega

/-- The header scan is insensitive to the fuel bound once the fuel covers the
input length: `fuel = l.length` in `scan` is always saturated. -/
theorem scanFuel_eq : ∀ fuel fuel2 (l : List Char), l.length ≤ fuel → l.length ≤ fuel2 →
    scanFuel fuel l = scanFuel fuel2 l := by
  intro fuel
  induction fuel with
  | zero =>
    intro fuel2 l h1 _
    have hl : l = [] := List.length_eq_zero.mp (Nat.le_zero.mp h1)
    subst hl
    cases fuel2 <;> rfl
  | succ f ih =>
    intro fuel2 l h1 h2
    cases l with
    | nil => cases fuel2 <;> rfl
    | cons c cs =>
      cases fuel2 with
      | zero => simp at h2
      | succ f2 =>
        simp only [scanFuel]
        cases hm : matchAt (c :: cs) with
        | none =>
          exact ih f2 cs (by simp only [List.length_cons] at h1; omega)
            (by simp only [List.length_cons] at h2; omega)
        | some t =>
          obtain ⟨n, v, rest⟩ := t
          have hlt := matchAt_rest_lt hm
          simp only [List.length_cons] at hlt h1 h2
          show (String.mk n, String.mk v) :: scanFuel f rest
              = (String.mk n, String.mk v) :: scanFuel f2 rest
          rw [ih f2 rest (by omega) (by omega)]

/-- `update` on a state whose `_refresh` flag is already false returns
immediately: no fetch, no state change. -/
theorem updateS_skip (s : Sys) (f : FetchOutcome) (h : s.refresh = false) :
    updateS s f = .ok s [] := by
  simp [updateS, h]

/-- `update` on a state whose `_refresh` flag is true performs exactly one
fetch attempt and, whatever the outcome, leaves behind the window-armed state
(flag cleared, window timer set), possibly with a new uuid. -/
theorem updateS_arm (s : Sys) (f : FetchOutcome) (h : s.refresh = true) :
    updOuts (updateS s f) = [.fetch f] ∧
    ∃ u, updSys (updateS s f) = { armWindow s with uuid := u } := by
  unfold updateS
  rw [h]
  simp only [if_true]
  cases f with
  | noConnect => exact ⟨rfl, s.uuid, rfl⟩
  | got r =>
    repeat' split
    all_goals first
      | exact ⟨rfl, s.uuid, rfl⟩
      | exact ⟨rfl, _, rfl⟩

/-- `operator()` never changes the clock. -/
theorem requestOp_now (s : Sys) (f : FetchOutcome) (a : String) (p mx r rmax : Nat) :
    (requestOp s f a p mx r rmax).1.now = s.now := by
  have hsys : (updSys (updateS s f)).now = s.now := by
    rcases Bool.eq_false_or_eq_true s.refresh with hr | hr
    · obtain ⟨-, u, hu⟩ := updateS_arm s f hr
      rw [hu]
      rfl
    · rw [updateS_skip s f hr]
      rfl
  unfold requestOp
  cases h : updateS s f with
  | ok s1 o =>
    rw [h] at hsys
    exact hsys
  | ex s1 o =>
    rw [h] at hsys
    exact hsys

/-- Time never decreases across a step. -/
theorem now_mono_step (s : Sys) (e : Event) : s.now ≤ (step s e).1.now := by
  cases e with
  | tick dt => simp [step]
  | fireRefresh =>
    simp only [step]
    cases s.trefreshDl <;> simp
  | fireResponse =>
    simp only [step]
    cases s.tresponse with
    | none => simp
    | some t => obtain ⟨a, p, dl⟩ := t; simp
  | recv d a p ec f r rmax =>
    simp only [step]
    split
    · simp
    cases hp : receiveParse d with
    | none => simp
    | some mx =>
      simp only
      rw [requestOp_now]

/-- Time never decreases across a run. -/
theorem now_mono_run (es : List Event) : ∀ (s : Sys), s.now ≤ (run s es).1.now := by
  induction es with
  | nil => intro s; simp [run]
  | cons e es ih =>
    intro s
    exact Nat.le_trans (now_mono_step s e) (ih (step s e).1)

/-- While the refresh window is open (flag false, window timer pending, and
the deadline still in the future), no enabled step fetches, and the window
state survives the step. -/
theorem step_window (s : Sys) (e : Event) (dl : Nat)
    (h1 : s.refresh = false) (h2 : s.trefreshDl = some dl) (h3 : s.now < dl)
    (he : enabledB s e = true) :
    (step s e).1.refresh = false ∧ (step s e).1.trefreshDl = some dl ∧
    ∀ o ∈ (step s e).2, isFetchOut o = false := by
  cases e with
  | tick dt => exact ⟨h1, h2, by simp [step]⟩
  | fireRefresh =>
    exfalso
    simp only [enabledB, h2, Bool.and_eq_true] at he
    have := of_decide_eq_true he.2
    omega
  | fireResponse =>
    simp only [step]
    cases hr : s.tresponse with
    | none => exact ⟨h1, h2, by simp⟩
    | some t =>
      obtain ⟨a, p, d0⟩ := t
      refine ⟨h1, h2, ?_⟩
      intro o ho
      simp only [List.mem_map] at ho
      obtain ⟨m, -, rfl⟩ := ho
      rfl
  | recv d a p ec f r rmax =>
    simp only [step]
    split
    · exact ⟨h1, h2, by simp⟩
    cases hp : receiveParse d with
    | none => exact ⟨h1, h2, by simp⟩
    | some mx =>
      simp only [requestOp, updateS_skip s f h1]
      exact ⟨h1, h2, by simp⟩

/-- Whole-trace version: as long as the clock stays short of the pending
window deadline, the whole segment performs no fetch and the flag stays
false. -/
theorem window_no_fetch (es : List Event) : ∀ (s : Sys) (dl : Nat),
    s.refresh = false → s.trefreshDl = some dl →
    validTrace s es = true → (run s es).1.now < dl →
    (∀ o ∈ (run s es).2, isFetchOut o = false) ∧ (run s es).1.refresh = false := by
  induction es with
  | nil =>
    intro s dl h1 _ _ _
    exact ⟨by simp [run], h1⟩
  | cons e es ih =>
    intro s dl h1 h2 hv hn
    simp only [validTrace, Bool.and_eq_true] at hv
    obtain ⟨he, hv⟩ := hv
    have hn2 : (run (step s e).1 es).1.now < dl := hn
    have hnow1 : s.now < dl :=
      Nat.lt_of_le_of_lt (Nat.le_trans (now_mono_step s e) (now_mono_run es (step s e).1)) hn2
    obtain ⟨p1, p2, p3⟩ := step_window s e dl h1 h2 hnow1 he
    obtain ⟨w1, w2⟩ := ih (step s e).1 dl p1 p2 hv hn2
    refine ⟨?_, w2⟩
    intro o ho
    simp only [run, List.mem_append] at ho
    rcases ho with ho | ho
    · exact p3 o ho
    · exact w1 o ho

/-- Fold used by `lookupLast` is the identity once no later pair carries the
key. -/
theorem foldl_no_key (t2 : List (String × String)) (k : String) :
    ∀ acc, (∀ p ∈ t2, p.1 ≠ k) →
    List.foldl (fun acc p => if p.1 == k then p.2 else acc) acc t2 = acc := by
  induction t2 with
  | nil => intro acc _; rfl
  | cons q t ih =>
    intro acc h
    simp only [List.foldl_cons]
    rw [if_neg (by simp [h q (List.mem_cons_self q t)])]
    exact ih acc (fun p hp => h p (List.mem_cons_of_mem q hp))

/-- Last occurrence of a duplicate header wins in the scanned map. -/
theorem lookupLast_last (t1 t2 : List (String × String)) (k v : String)
    (h : ∀ p ∈ t2, p.1 ≠ k) :
    lookupLast (t1 ++ (k, v) :: t2) k = v := by
  unfold lookupLast
  rw [List.foldl_append, List.foldl_cons]
  rw [if_pos (by simp)]
  exact foldl_no_key t2 k v h

/-- A pair with a different key anywhere in the list does not change a
lookup. -/
theorem lookupLast_ignore (t1 t2 : List (String × String)) (k v key : String)
    (h : k ≠ key) :
    lookupLast (t1 ++ (k, v) :: t2) key = lookupLast (t1 ++ t2) key := by
  unfold lookupLast
  rw [List.foldl_append, List.foldl_append, List.foldl_cons]
  rw [if_neg (by simp [h])]

/-- A list is a prefix of itself extended by anything. -/
theorem isPre_append (a b : List Char) : isPre a (a ++ b) = true := by
  induction a with
  | nil => rfl
  | cons c cs ih => simp [isPre, ih]

/-- Once the listener is disarmed, an enabled step is never a datagram
delivery, the listener stays disarmed, and the process-exit flag is
untouched. -/
theorem step_armed_false (s : Sys) (e : Event)
    (ha : s.armed = false) (he : enabledB s e = true) :
    isRecvEvent e = false ∧ (step s e).1.armed = false ∧ (step s e).1.dead = s.dead := by
  cases e with
  | tick dt => exact ⟨rfl, ha, rfl⟩
  | fireRefresh =>
    simp only [step]
    cases s.trefreshDl with
    | none => exact ⟨rfl, ha, rfl⟩
    | some d0 => exact ⟨rfl, ha, rfl⟩
  | fireResponse =>
    simp only [step]
    cases s.tresponse with
    | none => exact ⟨rfl, ha, rfl⟩
    | some t => obtain ⟨a, p, d0⟩ := t; exact ⟨rfl, ha, rfl⟩
  | recv d a p ec f r rmax =>
    exfalso
    simp [enabledB, ha] at he

/-- Whole-trace version for the disarmed listener: no datagram is ever
delivered again, the listener stays disarmed, and the process-exit flag is
unchanged. -/
theorem armed_false_run (es : List Event) : ∀ (s : Sys), s.armed = false →
    validTrace s es = true →
    (∀ e ∈ es, isRecvEvent e = false) ∧
    (run s es).1.armed = false ∧ (run s es).1.dead = s.dead := by
  induction es with
  | nil => intro s ha _; exact ⟨by simp, ha, rfl⟩
  | cons e es ih =>
    intro s ha hv
    simp only [validTrace, Bool.and_eq_true] at hv
    obtain ⟨he, hv⟩ := hv
    obtain ⟨q1, q2, q3⟩ := step_armed_false s e ha he
    obtain ⟨w1, w2, w3⟩ := ih (step s e).1 q2 hv
    refine ⟨?_, w2, ?_⟩
    · intro e2 he2
      rcases List.mem_cons.mp he2 with rfl | hm
      · exact q1
      · exact w1 e2 hm
    · show (run (step s e).1 es).1.dead = s.dead
      rw [w3, q3]

/-! ## Claims -/

/-- Claim C1, counterexample.  The claim asserts that two queries accepted
back-to-back (the second before the first's response timer fires) coexist
and EACH eventually sends its own burst, the earlier one never being
cancelled or replaced.  In the code the `Responder` owns a single
`_tresponse` timer; `expires_from_now` in `operator()` cancels the pending
wait (its handler gets `operation_aborted`, on which `respond` sends
nothing).  Concretely: after queries from 10.0.0.1:1000 and 10.0.0.2:2000
the only pending response is 10.0.0.2's; running the trace to quiescence
(no pending response remains) produced one fetch attempt and exactly one
burst, addressed to 10.0.0.2 — 10.0.0.1 never receives anything. -/
theorem C1_counterexample :
    validTrace (initSys "bridge.local" "80") c1trace = true ∧
    (run (initSys "bridge.local" "80") c1trace).2
      = Out.fetch f404 ::
        (respondMsgs "bridge.local" "80" "").map (fun m => Out.send "10.0.0.2" 2000 m) ∧
    (run (initSys "bridge.local" "80") c1trace).1.tresponse = none := by
  refine ⟨by decide, by decide, by decide⟩

/-- Claim C1, amended: the Scheduler has a single shared response timer.
Accepting a query overwrites the pending-response slot — whatever response
was pending before is cancelled and replaced (the cancelled handler sends
nothing) — and the accept itself sends no datagram; only the most recently
accepted query's burst can fire. -/
theorem C1_single_timer (s : Sys) (d : List Char) (a : String) (p : Nat)
    (f : FetchOutcome) (r rmax mx : Nat)
    (href : s.refresh = false) (hacc : receiveParse d = some mx) :
    step s (.recv d a p false f r rmax)
      = ({ s with tresponse := some (a, p, s.now + t_response_ms mx r rmax) }, []) := by
  simp [step, hacc, requestOp, updateS_skip s f href]

/-- Witness for C1_single_timer: a state with a response already pending for
10.0.0.1:1000 accepts a query from 10.0.0.2:2000; the slot now holds only
10.0.0.2's response. -/
theorem C1_single_timer_witness :
    s1pend.refresh = false ∧ receiveParse dgA = some 3 ∧
    step s1pend (.recv dgA "10.0.0.2" 2000 false f404 0 2147483647)
      = ({ s1pend with tresponse := some ("10.0.0.2", 2000, 0) }, []) :=
  ⟨rfl, by decide,
   (C1_single_timer s1pend dgA "10.0.0.2" 2000 f404 0 2147483647 3 rfl (by decide)).trans
     (by decide)⟩

/-- Claim C2, counterexample.  The claim asserts that EVERY upstream fetch
fault (connection failure included) is absorbed and the responder keeps
running.  In the code only a malformed status line or a non-200 status is
swallowed; a connection failure throws out of `update`, through
`Listener::receive` (whose try/catch only handles `bad_lexical_cast`), out
of `io_service::run`, into `main`'s catch — which exits the process.
Concretely: one accepted query with an unreachable bridge leaves the
process dead; no reply is ever sent and nothing can run afterwards. -/
theorem C2_counterexample :
    validTrace (initSys "bridge.local" "80") c2trace = true ∧
    (run (initSys "bridge.local" "80") c2trace).1.dead = true ∧
    (run (initSys "bridge.local" "80") c2trace).2 = [Out.fetch .noConnect] ∧
    enabledB (run (initSys "bridge.local" "80") c2trace).1 .fireResponse = false ∧
    enabledB (run (initSys "bridge.local" "80") c2trace).1
      (.recv dgA "10.0.0.1" 1000 false f404 0 2147483647) = false := by
  refine ⟨by decide, by decide, by decide, by decide, by decide⟩

/-- Claim C2, amended.  During a fetch the cached identifier is retained on
every fault, but the faults split in two classes: a malformed status line or
a non-200 status abandons the attempt silently (`update` returns normally);
a connection failure, a body read ending other than in clean EOF, an XML
parse failure, or a missing `root.device.UDN` path raises an exception that
escapes `update` and — no handler catching it before `main` — terminates
the process. -/
theorem C2_fetch_faults (s : Sys) (r : FetchResponse) (href : s.refresh = true) :
    ((!r.statusOk || !(httpTokenOk r.http_version)) = true →
      updateS s (.got r) = .ok (armWindow s) [.fetch (.got r)]) ∧
    (r.statusOk = true → httpTokenOk r.http_version = true → r.status_code ≠ 200 →
      updateS s (.got r) = .ok (armWindow s) [.fetch (.got r)]) ∧
    (updateS s .noConnect = .ex (armWindow s) [.fetch .noConnect]) ∧
    (r.statusOk = true → httpTokenOk r.http_version = true → r.status_code = 200 →
      r.cleanEof = false →
      updateS s (.got r) = .ex (armWindow s) [.fetch (.got r)]) ∧
    (r.statusOk = true → httpTokenOk r.http_version = true → r.status_code = 200 →
      r.cleanEof = true → r.xmlOk = false →
      updateS s (.got r) = .ex (armWindow s) [.fetch (.got r)]) ∧
    (r.statusOk = true → httpTokenOk r.http_version = true → r.status_code = 200 →
      r.cleanEof = true → r.xmlOk = true → r.udn = none →
      updateS s (.got r) = .ex (armWindow s) [.fetch (.got r)]) ∧
    (∀ (f : FetchOutcome) (d : List Char) (a : String) (p mx q rmax : Nat)
       (s1 : Sys) (outs : List Out),
      updateS s f = .ex s1 outs → receiveParse d = some mx →
      (step s (.recv d a p false f q rmax)).1.dead = true) := by
  refine ⟨?_, ?_, ?_, ?_, ?_, ?_, ?_⟩
  · intro h1
    simp [updateS, href, h1]
  · intro h1 h2 h3
    simp [updateS, href, h1, h2, h3]
  · simp [updateS, href]
  · intro h1 h2 h3 h4
    simp [updateS, href, h1, h2, h3, h4]
  · intro h1 h2 h3 h4 h5
    simp [updateS, href, h1, h2, h3, h4, h5]
  · intro h1 h2 h3 h4 h5 h6
    simp [updateS, href, h1, h2, h3, h4, h5, h6]
  · intro f d a p mx q rmax s1 outs hex hacc
    simp [step, hacc, requestOp, hex]

/-- Witness for C2_fetch_faults: a connection failure on the initial state
propagates as an exception, with the (empty) identifier retained. -/
theorem C2_fetch_faults_witness :
    (initSys "bridge.local" "80").refresh = true ∧
    updateS (initSys "bridge.local" "80") .noConnect
      = .ex (armWindow (initSys "bridge.local" "80")) [.fetch .noConnect] ∧
    (armWindow (initSys "bridge.local" "80")).uuid = (initSys "bridge.local" "80").uuid :=
  ⟨rfl, (C2_fetch_faults (initSys "bridge.local" "80") rsp404 rfl).2.2.1, rfl⟩

/-- Claim C3: fetch throttling.  (1) A call on the refresh path with
`_refresh = true` performs exactly one fetch attempt and leaves the flag
false with the window timer armed `t_refresh` seconds out — whatever the
fetch outcome, so a failure does not reset the flag early.  (2) A call with
`_refresh = false` performs no fetch and changes nothing.  (3) Along any
valid trace that stays inside the pending window (the clock never reaches
the deadline, so the window timer cannot have fired), no fetch attempt at
all occurs and the flag stays false.  (4) When the window timer fires the
flag flips back to true, after which a further call fetches again by (1). -/
theorem C3_throttle :
    (∀ (s : Sys) (f : FetchOutcome), s.refresh = true →
      updOuts (updateS s f) = [.fetch f] ∧
      (updSys (updateS s f)).refresh = false ∧
      (updSys (updateS s f)).trefreshDl = some (s.now + t_refresh * 1000)) ∧
    (∀ (s : Sys) (f : FetchOutcome), s.refresh = false → updateS s f = .ok s []) ∧
    (∀ (es : List Event) (s : Sys) (dl : Nat),
      s.refresh = false → s.trefreshDl = some dl →
      validTrace s es = true → (run s es).1.now < dl →
      (∀ o ∈ (run s es).2, isFetchOut o = false) ∧ (run s es).1.refresh = false) ∧
    (∀ (s : Sys) (dl : Nat), s.trefreshDl = some dl →
      (step s .fireRefresh).1.refresh = true) := by
  refine ⟨?_, updateS_skip, window_no_fetch, ?_⟩
  · intro s f h
    obtain ⟨h1, u, hu⟩ := updateS_arm s f h
    rw [hu]
    exact ⟨h1, rfl, rfl⟩
  · intro s dl h
    simp [step, h]

/-- Witness for C3: the first call from the initial state fetches once and
closes the window; a second call inside the window is a no-op. -/
theorem C3_throttle_witness :
    updOuts (updateS (initSys "bridge.local" "80") f404) = [.fetch f404] ∧
    (updSys (updateS (initSys "bridge.local" "80") f404)).refresh = false ∧
    updateS s7 f404 = .ok s7 [] :=
  ⟨(C3_throttle.1 (initSys "bridge.local" "80") f404 rfl).1,
   (C3_throttle.1 (initSys "bridge.local" "80") f404 rfl).2.1,
   C3_throttle.2.1 s7 f404 rfl⟩

/-- Claim C4: reply content.  When the response timer fires without error
with a pending `(addr, port)`, the step emits exactly three datagrams to
that `(addr, port)`, built from the fire-time state: the shared header
(whose LOCATION line carries the configured bridge host and service
verbatim — second conjunct) around each of the three documented ST/USN
variants, which are pairwise distinct (third conjunct).  The pending slot
stores no identifier, so the identifier in the datagrams is necessarily the
one cached at fire time, not at schedule time. -/
theorem C4_reply_content (s : Sys) (a : String) (p dl : Nat)
    (hp : s.tresponse = some (a, p, dl)) :
    (step s .fireResponse
      = ({ s with tresponse := none },
         [Out.send a p (HUE_RESPONSE_hdr s.server s.service s.uuid ++ HUE_ST1 s.uuid),
          Out.send a p (HUE_RESPONSE_hdr s.server s.service s.uuid ++ HUE_ST2 s.uuid),
          Out.send a p (HUE_RESPONSE_hdr s.server s.service s.uuid ++ HUE_ST3 s.uuid)])) ∧
    (∀ srv svc u st : String, ∃ x y : List Char,
      (HUE_RESPONSE_hdr srv svc u ++ st).data
        = x ++ ("LOCATION: http://" ++ srv ++ ":" ++ svc ++ "/description.xml\r\n").data ++ y) ∧
    (∀ u : String, HUE_ST1 u ≠ HUE_ST2 u ∧ HUE_ST1 u ≠ HUE_ST3 u ∧ HUE_ST2 u ≠ HUE_ST3 u) := by
  refine ⟨?_, ?_, ?_⟩
  · simp [step, hp, respondMsgs]
  · intro srv svc u st
    refine ⟨("HTTP/1.1 200 OK\r\nHOST: 239.255.255.250:1900\r\nCACHE-CONTROL: max-age=100\r\nEXT:\r\n").data,
            ("SERVER: Linux/3.14.0 UPnP/1.0 IpBridge/1.24.0\r\n" ++ "hue-bridgeid: " ++ u ++ "\r\n" ++ st).data, ?_⟩
    simp [HUE_RESPONSE_hdr, String.data_append, List.append_assoc]
  · intro u
    refine ⟨?_, ?_, ?_⟩
    · intro h
      have h6 := congrArg (fun t : String => t.data.take 6) h
      simp only [HUE_ST1, HUE_ST2, String.data_append, List.append_assoc] at h6
      rw [List.take_append_of_le_length (by decide),
          List.take_append_of_le_length (by decide)] at h6
      exact absurd h6 (by decide)
    · intro h
      have h6 := congrArg (fun t : String => t.data.take 6) h
      simp only [HUE_ST1, HUE_ST3, String.data_append, List.append_assoc] at h6
      rw [List.take_append_of_le_length (by decide),
          List.take_append_of_le_length (by decide)] at h6
      exact absurd h6 (by decide)
    · intro h
      have h6 := congrArg (fun t : String => t.data.take 6) h
      simp only [HUE_ST2, HUE_ST3, String.data_append, List.append_assoc] at h6
      rw [List.take_append_of_le_length (by decide),
          List.take_append_of_le_length (by decide)] at h6
      exact absurd h6 (by decide)

/-- Witness for C4: a fire from state `s4` sends the three bursts to
10.0.0.5:51000 with identifier ABC-123. -/
theorem C4_reply_content_witness :
    s4.tresponse = some ("10.0.0.5", 51000, 0) ∧
    step s4 .fireResponse
      = ({ s4 with tresponse := none },
         [Out.send "10.0.0.5" 51000
            (HUE_RESPONSE_hdr "bridge.local" "80" "ABC-123" ++ HUE_ST1 "ABC-123"),
          Out.send "10.0.0.5" 51000
            (HUE_RESPONSE_hdr "bridge.local" "80" "ABC-123" ++ HUE_ST2 "ABC-123"),
          Out.send "10.0.0.5" 51000
            (HUE_RESPONSE_hdr "bridge.local" "80" "ABC-123" ++ HUE_ST3 "ABC-123")]) :=
  ⟨rfl, (C4_reply_content s4 "10.0.0.5" 51000 0 rfl).1⟩

/-- Claim C5, counterexample.  The delay is
`static_cast<uint64_t>(mx) * 1000 * rand() / RAND_MAX`; `rand()` ranges
over `[0, RAND_MAX]` INCLUSIVE, so at `rand() = RAND_MAX` (glibc:
2147483647) with `MX = 1` the delay is exactly `1 * 1000` ms — not
strictly less than `mx * 1000`.  The interval is closed, not half-open. -/
theorem C5_counterexample :
    t_response_ms 1 2147483647 2147483647 = 1 * 1000 ∧
    ¬(t_response_ms 1 2147483647 2147483647 < 1 * 1000) := by
  refine ⟨by decide, by decide⟩

/-- Claim C5, amended: for every draw `r ≤ RAND_MAX` of the random source
the scheduled delay is AT MOST `mx * 1000` milliseconds (closed interval
`[0, mx*1000]`), and the bound is attained at `r = RAND_MAX`. -/
theorem C5_delay_bound (mx r rmax : Nat) (h0 : 0 < rmax) (hr : r ≤ rmax) :
    t_response_ms mx r rmax ≤ mx * 1000 ∧ t_response_ms mx rmax rmax = mx * 1000 := by
  constructor
  · unfold t_response_ms
    have h1 : mx * 1000 * r ≤ mx * 1000 * rmax := Nat.mul_le_mul_left _ hr
    have h2 : mx * 1000 * r / rmax ≤ mx * 1000 * rmax / rmax := Nat.div_le_div_right h1
    rwa [Nat.mul_div_cancel _ h0] at h2
  · unfold t_response_ms
    exact Nat.mul_div_cancel _ h0

/-- Witness for C5_delay_bound at `mx = 3`, `r = 5`, `RAND_MAX = 32767`. -/
theorem C5_delay_bound_witness :
    0 < 32767 ∧ 5 ≤ 32767 ∧ t_response_ms 3 5 32767 ≤ 3 * 1000 :=
  ⟨by decide, by decide, (C5_delay_bound 3 5 32767 (by decide) (by decide)).1⟩

/-- Claim C6: filtering.  A datagram that does not begin with the literal
request line `M-SEARCH * HTTP/1.1` parses to `none`; so does any datagram
whose ST header value (after tokenization, exact and case-sensitive) is not
in `service_types`; and a datagram that parses to `none` leaves the state
untouched and sends nothing — it is silently discarded. -/
theorem C6_filtering :
    (∀ d : List Char, isPre msearchChars d = false → receiveParse d = none) ∧
    (∀ d : List Char, stOk (lookupLast (headersOf d) "ST") = false →
      receiveParse d = none) ∧
    (∀ (s : Sys) (d : List Char) (a : String) (p : Nat) (f : FetchOutcome) (r rmax : Nat),
      receiveParse d = none → step s (.recv d a p false f r rmax) = (s, [])) := by
  refine ⟨?_, ?_, ?_⟩
  · intro d h
    simp [receiveParse, h]
  · intro d h
    simp [receiveParse, decision, h]
  · intro s d a p f r rmax h
    simp [step, h]

/-- Witness for C6: a NOTIFY datagram and a datagram with an unsupported ST
are both dropped without effect. -/
theorem C6_filtering_witness :
    isPre msearchChars "NOTIFY * HTTP/1.1\r\nST: ssdp:all\r\nMX: 3\r\n".data = false ∧
    receiveParse "NOTIFY * HTTP/1.1\r\nST: ssdp:all\r\nMX: 3\r\n".data = none ∧
    stOk (lookupLast (headersOf "M-SEARCH * HTTP/1.1\r\nST: urn:other:1\r\nMX: 3\r\n".data) "ST")
      = false ∧
    receiveParse "M-SEARCH * HTTP/1.1\r\nST: urn:other:1\r\nMX: 3\r\n".data = none :=
  ⟨by decide, C6_filtering.1 _ (by decide), by decide, C6_filtering.2.1 _ (by decide)⟩

/-- Claim C7, counterexample.  The claim asserts that any MX value "not
parseable as an unsigned 16-bit integer" is silently rejected with no
response scheduled.  But `boost::lexical_cast<uint16_t>` accepts a leading
sign and converts `"-1"` — not an unsigned 16-bit numeral — through
unsigned wraparound to 65535, so the code ACCEPTS the datagram and
schedules a response for it.  Concretely: from a window-open state, the
`MX: -1` datagram parses to 65535 and a response is armed. -/
theorem C7_counterexample :
    lexical_cast_uint16 "-1" = some 65535 ∧
    receiveParse dgNeg = some 65535 ∧
    step s7 (.recv dgNeg "10.0.0.5" 51000 false f404 0 2147483647)
      = ({ s7 with tresponse := some ("10.0.0.5", 51000, 0) }, []) := by
  refine ⟨by decide, by decide, by decide⟩

/-- Claim C7, amended: MX handling.  A missing MX header looks up as the
empty string, which `lexical_cast<uint16_t>` rejects; a value that is not
an optionally sign-prefixed in-range decimal numeral makes the cast fail,
the whole parse is then `none` and such a datagram is silently discarded by
the step.  However, the cast accepts one leading `+` (value unchanged) and
one leading `-` with unsigned wraparound modulo 2^16 (`-1` → 65535), so
sign-prefixed values ARE accepted and scheduled.  `MX: 0` parses to 0, the
computed maximum delay is 0 ms for every random draw, and the accepted
query is scheduled with its deadline equal to the current time (it may fire
immediately). -/
theorem C7_mx :
    lexical_cast_uint16 "" = none ∧
    lexical_cast_uint16 "0" = some 0 ∧
    (∀ X : List Char, lexical_cast_uint16 (String.mk ('+' :: X)) = castDigits X) ∧
    (∀ X : List Char, lexical_cast_uint16 (String.mk ('-' :: X))
        = (castDigits X).map (fun n => (65536 - n) % 65536)) ∧
    (∀ d : List Char, lexical_cast_uint16 (lookupLast (headersOf d) "MX") = none →
      receiveParse d = none) ∧
    (∀ (s : Sys) (d : List Char) (a : String) (p : Nat) (f : FetchOutcome) (r rmax : Nat),
      receiveParse d = none → step s (.recv d a p false f r rmax) = (s, [])) ∧
    (∀ r rmax : Nat, t_response_ms 0 r rmax = 0) ∧
    (∀ (s : Sys) (d : List Char) (a : String) (p : Nat) (f : FetchOutcome) (r rmax : Nat),
      s.refresh = false → receiveParse d = some 0 →
      step s (.recv d a p false f r rmax)
        = ({ s with tresponse := some (a, p, s.now) }, [])) := by
  refine ⟨by decide, by decide, ?_, ?_, ?_, ?_, ?_, ?_⟩
  · intro X
    rfl
  · intro X
    rfl
  · intro d h
    simp [receiveParse, decision, h]
  · intro s d a p f r rmax h
    simp [step, h]
  · intro r rmax
    simp [t_response_ms]
  · intro s d a p f r rmax hs h
    have h0 : t_response_ms 0 r rmax = 0 := by simp [t_response_ms]
    simp [step, h, requestOp, updateS_skip s f hs, h0]

/-- Witness for C7_mx: from a window-open state, the `MX: 0` datagram is
accepted and scheduled to fire at the current clock, and a non-numeric MX
is silently discarded. -/
theorem C7_mx_witness :
    s7.refresh = false ∧ receiveParse dg0 = some 0 ∧
    step s7 (.recv dg0 "10.0.0.5" 51000 false f404 7 2147483647)
      = ({ s7 with tresponse := some ("10.0.0.5", 51000, s7.now) }, []) ∧
    receiveParse "M-SEARCH * HTTP/1.1\r\nST: ssdp:all\r\nMX: abc\r\n\r\n".data = none :=
  ⟨rfl, by decide,
   C7_mx.2.2.2.2.2.2.2 s7 dg0 "10.0.0.5" 51000 f404 7 2147483647 rfl (by decide),
   C7_mx.2.2.2.2.1 "M-SEARCH * HTTP/1.1\r\nST: ssdp:all\r\nMX: abc\r\n\r\n".data (by decide)⟩

/-- Claim C8, counterexample.  The claim asserts that on a successful fetch
the UDN value — with a `uuid:` prefix stripped IF PRESENT — is stored.  In
the code the assignment `_uuid = uuid.substr(5)` happens only inside
`if (uuid.find("uuid:") == 0)`: with a prefix-less UDN nothing is stored at
all.  Concretely: a successful 200 fetch whose UDN is `ABC-123` leaves the
previously cached `OLD` in place instead of storing `ABC-123`. -/
theorem C8_counterexample :
    updateS s8 fBare = .ok (armWindow s8) [.fetch fBare] ∧
    (armWindow s8).uuid = "OLD" ∧ ("OLD" : String) ≠ "ABC-123" := by
  refine ⟨by decide, by decide, by decide⟩

/-- Claim C8, amended: on a successful fetch (HTTP/ token, status exactly
200, clean EOF, parseable body, UDN present), if the UDN value starts with
the literal `uuid:` the prefix is stripped and the remainder stored as the
cached identifier — in particular a UDN of `uuid:X` caches exactly `X` —
and if the prefix is absent the cached identifier is left unchanged. -/
theorem C8_udn (s : Sys) (r : FetchResponse) (X : List Char)
    (href : s.refresh = true) (h1 : r.statusOk = true)
    (h2 : httpTokenOk r.http_version = true) (h3 : r.status_code = 200)
    (h4 : r.cleanEof = true) (h5 : r.xmlOk = true) :
    (r.udn = some (String.mk (uuidStr ++ X)) →
      updateS s (.got r)
        = .ok { armWindow s with uuid := String.mk X } [.fetch (.got r)]) ∧
    (∀ u : String, r.udn = some u → isPre uuidStr u.data = false →
      updateS s (.got r) = .ok (armWindow s) [.fetch (.got r)]) := by
  constructor
  · intro hu
    simp only [updateS, href, if_true, h1, h2, h3, h4, h5, hu]
    simp [isPre_append, List.drop_left]
  · intro u hu hnp
    simp only [updateS, href, if_true, h1, h2, h3, h4, h5, hu]
    simp [hnp]

/-- Witness for C8_udn: a successful fetch with UDN `uuid:ABC-123` caches
exactly `ABC-123`. -/
theorem C8_udn_witness :
    rspGood.udn = some (String.mk (uuidStr ++ "ABC-123".data)) ∧
    updateS (initSys "bridge.local" "80") fGood
      = .ok { armWindow (initSys "bridge.local" "80") with uuid := String.mk "ABC-123".data }
          [.fetch fGood] ∧
    String.mk "ABC-123".data = "ABC-123" :=
  ⟨by decide,
   (C8_udn (initSys "bridge.local" "80") rspGood "ABC-123".data
      rfl rfl (by decide) rfl rfl rfl).1 (by decide),
   rfl⟩

/-- Claim C9: header tokenization.  A datagram beginning with the request
line is parsed exactly through the scan of its remainder into
`Header: value` pairs of non-whitespace token sequences; in the resulting
map the last occurrence of a duplicated header wins; and a pair whose name
is neither `ST` nor `MX`, inserted anywhere, leaves the accept/reject
decision unchanged. -/
theorem C9_tokenization :
    (∀ d : List Char, isPre msearchChars d = true →
      receiveParse d = decision (scan (d.drop msearchChars.length))) ∧
    (∀ (t1 t2 : List (String × String)) (k v : String), (∀ p ∈ t2, p.1 ≠ k) →
      lookupLast (t1 ++ (k, v) :: t2) k = v) ∧
    (∀ (t1 t2 : List (String × String)) (k v : String), k ≠ "ST" → k ≠ "MX" →
      decision (t1 ++ (k, v) :: t2) = decision (t1 ++ t2)) := by
  refine ⟨?_, lookupLast_last, ?_⟩
  · intro d h
    simp [receiveParse, headersOf, h]
  · intro t1 t2 k v hst hmx
    unfold decision
    rw [lookupLast_ignore t1 t2 k v "ST" hst, lookupLast_ignore t1 t2 k v "MX" hmx]

/-- Witness for C9: with a duplicated ST header the later value wins, and an
unknown header does not change the decision. -/
theorem C9_tokenization_witness :
    lookupLast ([("ST", "upnp:rootdevice")] ++ ("ST", "ssdp:all") :: [("MX", "3")]) "ST"
      = "ssdp:all" ∧
    decision ([("ST", "ssdp:all")] ++ ("MAN", "\"ssdp:discover\"") :: [("MX", "3")])
      = decision ([("ST", "ssdp:all")] ++ [("MX", "3")]) :=
  ⟨C9_tokenization.2.1 [("ST", "upnp:rootdevice")] [("MX", "3")] "ST" "ssdp:all"
     (by decide),
   C9_tokenization.2.2 [("ST", "ssdp:all")] [("MX", "3")] "MAN" "\"ssdp:discover\""
     (by decide) (by decide)⟩

/-- Claim C10 (implicit): an errored asynchronous receive returns before
re-arming the next receive, so the listener is disarmed and nothing else
changes; from a disarmed-listener state, no valid continuation ever
delivers another datagram (hence nothing is ever parsed and no response is
ever scheduled again), while the process-exit flag is untouched — the
listener stops silently and the process stays alive. -/
theorem C10_listener_stops :
    (∀ (s : Sys) (d : List Char) (a : String) (p : Nat) (f : FetchOutcome) (r rmax : Nat),
      step s (.recv d a p true f r rmax) = ({ s with armed := false }, [])) ∧
    (∀ (s : Sys) (es : List Event), s.armed = false → validTrace s es = true →
      (∀ e ∈ es, isRecvEvent e = false) ∧
      (run s es).1.armed = false ∧ (run s es).1.dead = s.dead) := by
  constructor
  · intro s d a p f r rmax
    rfl
  · intro s es ha hv
    exact armed_false_run es s ha hv

/-- Witness for C10: an errored receive disarms the initial state; from the
disarmed state a tick-only trace is valid, delivers no datagram, and keeps
the process alive. -/
theorem C10_listener_stops_witness :
    step (initSys "bridge.local" "80") (.recv dgA "10.0.0.5" 51000 true f404 0 32767)
      = ({ initSys "bridge.local" "80" with armed := false }, []) ∧
    (run s10 [Event.tick 5]).1.armed = false ∧ (run s10 [Event.tick 5]).1.dead = s10.dead :=
  ⟨C10_listener_stops.1 (initSys "bridge.local" "80") dgA "10.0.0.5" 51000 f404 0 32767,
   (C10_listener_stops.2 s10 [Event.tick 5] rfl (by decide)).2.1,
   (C10_listener_stops.2 s10 [Event.tick 5] rfl (by decide)).2.2⟩

end Hued
